import Mathlib

/-!
Shallow embedding of the vehicle-service-center appointment tracker
(`src/Bootcampmp2.cpp`).  The C++ classes become Lean structures and
inductive types; the mutating methods become explicit state-passing
functions; thrown exceptions become `Except String`; console output
(notifications, listing) becomes returned values.  Monetary amounts are
modelled as exact rationals: every constant in the source (50.0, 200.0,
the 1.5 multiplier) is exactly representable, and the only arithmetic
performed on them (one multiplication) is exact in IEEE double as well.
-/

namespace BootcampCpp

/-- The `Client` class: name and contact, immutable after construction. -/
structure Client where
  name : String
  contact : String
deriving DecidableEq, Repr

/-- A notification delivered to a client by `Client::update`
(the Observer callback): recipient plus message string. -/
structure Notification where
  recipient : Client
  message : String
deriving DecidableEq, Repr

/-- The State-pattern hierarchy `ScheduledState` / `InProgressState` /
`CompletedState`, represented as a closed sum. -/
inductive ServiceState where
  | scheduled
  | inProgress
  | completed
deriving DecidableEq, Repr

/-- `getStatus` of each concrete state class. -/
def ServiceState.getStatus : ServiceState → String
  | .scheduled => "Scheduled"
  | .inProgress => "In Progress"
  | .completed => "Completed"

/-- `nextState`: `ScheduledState` installs `InProgressState`,
`InProgressState` installs `CompletedState`, `CompletedState`
does nothing (final state, no transition). -/
def ServiceState.nextState : ServiceState → ServiceState
  | .scheduled => .inProgress
  | .inProgress => .completed
  | .completed => .completed

/-- Position of a state along the lifecycle, used to express
"never backward, never skipping". -/
def ServiceState.rank : ServiceState → Nat
  | .scheduled => 0
  | .inProgress => 1
  | .completed => 2

/-- The `Service` hierarchy: `OilChange` (no constructor argument) and
`EngineRepair` (carries its `repairType` string). -/
inductive Service where
  | oilChange
  | engineRepair (repairType : String)
deriving DecidableEq, Repr

/-- `serviceType` field as set by each constructor. -/
def Service.serviceType : Service → String
  | .oilChange => "Oil Change"
  | .engineRepair _ => "Engine Repair"

/-- `baseCost` field as set by each constructor. -/
def Service.baseCost : Service → ℚ
  | .oilChange => 50
  | .engineRepair _ => 200

/-- `partsRequired` field as set by each constructor body. -/
def Service.partsRequired : Service → List String
  | .oilChange => ["Oil Filter", "Engine Oil"]
  | .engineRepair _ => ["Engine Parts", "Lubricants"]

/-- `calculateCost`: `OilChange` returns `baseCost`;
`EngineRepair` returns `baseCost * 1.5`. -/
def Service.calculateCost : Service → ℚ
  | .oilChange => Service.baseCost .oilChange
  | .engineRepair t => (Service.engineRepair t).baseCost * (3 / 2)

/-- `getDescription` of each concrete service class. -/
def Service.getDescription : Service → String
  | .oilChange => "Standard Oil Change Service"
  | .engineRepair t => "Engine Repair: " ++ t

/-- The `calculateCost` method as an explicit call on the receiver:
result paired with the receiver after the call.  The method bodies read
`baseCost` and assign no field, so the receiver is returned with the
same constructed fields. -/
def Service.calculateCostCall : Service → ℚ × Service
  | .oilChange => (Service.baseCost .oilChange, .oilChange)
  | .engineRepair t => ((Service.engineRepair t).baseCost * (3 / 2), .engineRepair t)

/-- The `getDescription` method as an explicit call on the receiver:
result paired with the receiver after the call (the body assigns no
field). -/
def Service.getDescriptionCall : Service → String × Service
  | .oilChange => ("Standard Oil Change Service", .oilChange)
  | .engineRepair t => ("Engine Repair: " ++ t, .engineRepair t)

/-- The `ServiceAppointment` class.  The `serviceCenter` back pointer is
never read by any method, so it is not part of the state. -/
structure ServiceAppointment where
  client : Client
  vehicleNumber : String
  service : Service
  scheduledDate : String
  currentState : ServiceState
deriving DecidableEq, Repr

/-- The `ServiceAppointment` constructor: stores the arguments and sets
`currentState` to a fresh `ScheduledState`. -/
def ServiceAppointment.make (client : Client) (vehicleNum : String)
    (service : Service) (date : String) : ServiceAppointment :=
  { client := client, vehicleNumber := vehicleNum, service := service,
    scheduledDate := date, currentState := .scheduled }

/-- `progressState`: delegates to the current state's `nextState`,
which (via `setState`) replaces only `currentState`. -/
def ServiceAppointment.progressState (a : ServiceAppointment) : ServiceAppointment :=
  { a with currentState := a.currentState.nextState }

/-- `progressState` applied `n` times. -/
def ServiceAppointment.progressStateN (a : ServiceAppointment) : Nat → ServiceAppointment
  | 0 => a
  | n + 1 => (a.progressStateN n).progressState

/-- `getStatus` of an appointment: the current state's label. -/
def ServiceAppointment.getStatus (a : ServiceAppointment) : String :=
  a.currentState.getStatus

/-- The fields of an appointment other than the lifecycle state,
used to state frame conditions. -/
def ServiceAppointment.frameFields (a : ServiceAppointment) :
    Client × String × Service × String :=
  (a.client, a.vehicleNumber, a.service, a.scheduledDate)

/-- The `ServiceCenter` class: the insertion-ordered appointment
sequence.  The mutex, condition variable and `isOpen` flag are never
observed by any behaviour. -/
structure ServiceCenter where
  appointments : List ServiceAppointment
deriving DecidableEq, Repr

/-- A freshly constructed `ServiceCenter` (empty registry). -/
def ServiceCenter.empty : ServiceCenter := ⟨[]⟩

/-- The conflict test of the scan in `addAppointment`:
`apt->getScheduledDate() == date && apt->getVehicleNumber() == vehicleNum`. -/
def conflictsWith (vehicleNum date : String) (apt : ServiceAppointment) : Bool :=
  apt.scheduledDate == date && apt.vehicleNumber == vehicleNum

/-- The message of the `runtime_error` thrown on a scheduling conflict. -/
def schedulingConflictMsg : String :=
  "Scheduling conflict: Vehicle already has an appointment on this date"

/-- `ServiceCenter::addAppointment`: scans the existing appointments for
a same-date same-vehicle entry; on a hit throws the conflict error,
otherwise appends a fresh appointment and notifies the client.  The
successful result carries the new registry state and the delivered
notification. -/
def ServiceCenter.addAppointment (sc : ServiceCenter) (client : Client)
    (vehicleNum : String) (service : Service) (date : String) :
    Except String (ServiceCenter × Notification) :=
  if sc.appointments.any (conflictsWith vehicleNum date) then
    .error schedulingConflictMsg
  else
    let appointment := ServiceAppointment.make client vehicleNum service date
    .ok (⟨sc.appointments ++ [appointment]⟩,
         ⟨client, "Appointment scheduled for " ++ date⟩)

/-- One schedule request: the arguments of an `addAppointment` call. -/
structure Request where
  client : Client
  vehicleNum : String
  service : Service
  date : String
deriving DecidableEq, Repr

/-- One `addAppointment` call as seen by the driving loop: the thrown
exception is caught at the top level, leaving the registry as it was and
delivering no notification. -/
def ServiceCenter.step (sc : ServiceCenter) (r : Request) :
    ServiceCenter × List Notification :=
  match sc.addAppointment r.client r.vehicleNum r.service r.date with
  | .ok (sc', n) => (sc', [n])
  | .error _ => (sc, [])

/-- The registry state after a sequence of `addAppointment` calls
(failed calls leave the state unchanged). -/
def ServiceCenter.run (sc : ServiceCenter) : List Request → ServiceCenter
  | [] => sc
  | r :: rs => ((sc.step r).1).run rs

/-- How many of the calls in the sequence succeed. -/
def ServiceCenter.countSuccesses (sc : ServiceCenter) : List Request → Nat
  | [] => 0
  | r :: rs =>
    (if (sc.addAppointment r.client r.vehicleNum r.service r.date).isOk then 1 else 0)
      + ((sc.step r).1).countSuccesses rs

/-- The per-appointment output block of `viewAppointments`. -/
def summarize (apt : ServiceAppointment) : String :=
  "\nVehicle: " ++ apt.vehicleNumber
    ++ "\nClient: " ++ apt.client.name
    ++ "\nService: " ++ apt.service.getDescription
    ++ "\nDate: " ++ apt.scheduledDate
    ++ "\nStatus: " ++ apt.getStatus ++ "\n"

/-- The traversal loop of `viewAppointments`: walks the sequence,
emitting each appointment's summary; returns the sequence as the loop
leaves it together with the emitted output. -/
def viewLoop : List ServiceAppointment → List ServiceAppointment × List String
  | [] => ([], [])
  | apt :: rest =>
    let out := summarize apt
    let (rest', outs) := viewLoop rest
    (apt :: rest', out :: outs)

/-- `ServiceCenter::viewAppointments`: the registry state after the call
paired with the printed summaries, in traversal order. -/
def ServiceCenter.viewAppointments (sc : ServiceCenter) :
    ServiceCenter × List String :=
  let (apts, outs) := viewLoop sc.appointments
  (⟨apts⟩, outs)

/-- The service-construction branch of the interactive schedule flow in
`main`: `"oil"` builds an `OilChange`, `"engine"` reads a repair kind
and builds an `EngineRepair`, anything else throws
`invalid_argument("Invalid service type")`. -/
def makeService (serviceTy : String) (repairKind : String) : Except String Service :=
  if serviceTy == "oil" then .ok .oilChange
  else if serviceTy == "engine" then .ok (.engineRepair repairKind)
  else .error "Invalid service type"

/-- The whole schedule flow of `main` option 1: construct the client and
the service, then submit to the registry.  A service-construction
failure propagates before `addAppointment` is reached. -/
def scheduleFlow (sc : ServiceCenter) (clientName contact vehicleNum date
    serviceTy repairKind : String) : Except String (ServiceCenter × Notification) :=
  match makeService serviceTy repairKind with
  | .error e => .error e
  | .ok service =>
    sc.addAppointment ⟨clientName, contact⟩ vehicleNum service date

/-- The schedule flow as seen by the driving loop: a thrown exception is
caught, leaving the registry as it was and delivering no notification. -/
def scheduleFlowStep (sc : ServiceCenter) (clientName contact vehicleNum date
    serviceTy repairKind : String) : ServiceCenter × List Notification :=
  match scheduleFlow sc clientName contact vehicleNum date serviceTy repairKind with
  | .ok (sc', n) => (sc', [n])
  | .error _ => (sc, [])

/-- Two appointments do not collide on the (vehicle, date) key. -/
def noPairConflict (a b : ServiceAppointment) : Prop :=
  ¬(a.vehicleNumber = b.vehicleNumber ∧ a.scheduledDate = b.scheduledDate)

/-- The registry invariant: pairwise distinct (vehicle, date) keys. -/
def ServiceCenter.noConflicts (sc : ServiceCenter) : Prop :=
  sc.appointments.Pairwise noPairConflict

/-- `needle` occurs verbatim as a contiguous substring of `hay`. -/
def containsVerbatim (hay needle : String) : Prop :=
  ∃ pre post, hay = pre ++ needle ++ post

/-- `progressState` invoked on the appointment at position `i` of the
registry's sequence (the sequence itself is not otherwise touched). -/
def progressAt : List ServiceAppointment → Nat → List ServiceAppointment
  | [], _ => []
  | a :: rest, 0 => a.progressState :: rest
  | a :: rest, n + 1 => a :: progressAt rest n

/-- Concrete data for witness instances, taken from the spec's scenario. -/
def sampleClient : Client := ⟨"Alice", "555"⟩

/-- A second concrete client for witness instances. -/
def sampleClient2 : Client := ⟨"Bob", "777"⟩

/-- A concrete appointment: Alice, vehicle KA01, oil change, 01-01-2025. -/
def sampleApt : ServiceAppointment :=
  ServiceAppointment.make sampleClient "KA01" .oilChange "01-01-2025"

/-- A registry already holding `sampleApt`. -/
def sampleCenter : ServiceCenter := ⟨[sampleApt]⟩

theorem string_append_assoc (a b c : String) : a ++ b ++ c = a ++ (b ++ c) := by
  apply String.ext
  simp [List.append_assoc]

theorem string_append_empty (a : String) : a ++ "" = a := by
  apply String.ext
  simp

theorem any_conflict_iff (sc : ServiceCenter) (v d : String) :
    sc.appointments.any (conflictsWith v d) = true
      ↔ ∃ apt ∈ sc.appointments, apt.vehicleNumber = v ∧ apt.scheduledDate = d := by
  simp only [List.any_eq_true, conflictsWith, Bool.and_eq_true, beq_iff_eq]
  constructor <;> rintro ⟨apt, h1, h2, h3⟩ <;> exact ⟨apt, h1, h3, h2⟩

theorem addAppointment_ok_shape (sc : ServiceCenter) (c : Client) (v : String)
    (s : Service) (d : String) (sc' : ServiceCenter) (n : Notification)
    (heq : sc.addAppointment c v s d = .ok (sc', n)) :
    sc.appointments.any (conflictsWith v d) = false
    ∧ sc' = ⟨sc.appointments ++ [ServiceAppointment.make c v s d]⟩
    ∧ n = ⟨c, "Appointment scheduled for " ++ d⟩ := by
  unfold ServiceCenter.addAppointment at heq
  by_cases hc : sc.appointments.any (conflictsWith v d) = true
  · simp [hc] at heq
  · simp [hc] at heq
    exact ⟨Bool.eq_false_iff.mpr hc, heq.1.symm, heq.2.symm⟩

theorem step_preserves_noConflicts (sc : ServiceCenter) (r : Request)
    (h : sc.noConflicts) : ((sc.step r).1).noConflicts := by
  unfold ServiceCenter.step
  split
  case h_2 => exact h
  case h_1 sc' n heq =>
    obtain ⟨hany, hsc', -⟩ := addAppointment_ok_shape _ _ _ _ _ _ _ heq
    subst hsc'
    show List.Pairwise noPairConflict _
    rw [List.pairwise_append]
    refine ⟨h, List.pairwise_singleton _ _, ?_⟩
    intro a ha b hb
    simp only [List.mem_singleton] at hb
    subst hb
    intro ⟨hveq, hdeq⟩
    have : conflictsWith r.vehicleNum r.date a = false :=
      Bool.eq_false_iff.mpr (List.any_eq_false.mp hany a ha)
    simp [conflictsWith, ServiceAppointment.make] at hveq hdeq
    simp [conflictsWith, hveq, hdeq] at this

theorem viewLoop_eq (l : List ServiceAppointment) :
    viewLoop l = (l, l.map summarize) := by
  induction l with
  | nil => rfl
  | cons a rest ih => simp [viewLoop, ih]

/-- C1: every registry state reachable by a sequence of schedule calls
from the empty registry has pairwise distinct (vehicle, date) keys. -/
theorem registry_keys_pairwise_distinct (rs : List Request) :
    (ServiceCenter.empty.run rs).noConflicts := by
  have gen : ∀ l (sc : ServiceCenter), sc.noConflicts → (sc.run l).noConflicts := by
    intro l
    induction l with
    | nil => exact fun sc h => h
    | cons r rest ih =>
      exact fun sc h => ih _ (step_preserves_noConflicts sc r h)
  exact gen rs ServiceCenter.empty List.Pairwise.nil

/-- C2: `addAppointment` raises the scheduling-conflict error exactly
when some stored appointment matches on both vehicle and date, and a
raising call leaves the registry unchanged and delivers no
notification. -/
theorem schedule_conflict_iff (sc : ServiceCenter) (c : Client) (v : String)
    (s : Service) (d : String) :
    (sc.addAppointment c v s d = .error schedulingConflictMsg
      ↔ ∃ apt ∈ sc.appointments, apt.vehicleNumber = v ∧ apt.scheduledDate = d)
    ∧ (sc.addAppointment c v s d = .error schedulingConflictMsg
        → sc.step ⟨c, v, s, d⟩ = (sc, [])) := by
  by_cases hc : sc.appointments.any (conflictsWith v d) = true
  · have herr : sc.addAppointment c v s d = .error schedulingConflictMsg := by
      simp [ServiceCenter.addAppointment, hc]
    refine ⟨⟨fun _ => (any_conflict_iff sc v d).mp hc, fun _ => herr⟩, fun _ => ?_⟩
    simp [ServiceCenter.step, herr]
  · have hok : sc.addAppointment c v s d
        = .ok (⟨sc.appointments ++ [ServiceAppointment.make c v s d]⟩,
               ⟨c, "Appointment scheduled for " ++ d⟩) := by
      simp [ServiceCenter.addAppointment, hc]
    rw [hok]
    refine ⟨⟨fun h => absurd h (by simp), fun h => ?_⟩, fun h => absurd h (by simp)⟩
    exact absurd ((any_conflict_iff sc v d).mpr h) hc

/-- Witness for C2 at the spec's scenario: Bob's request for the
already-booked (KA01, 01-01-2025) pair is rejected and changes
nothing. -/
theorem schedule_conflict_iff_witness :
    sampleCenter.addAppointment sampleClient2 "KA01" .oilChange "01-01-2025"
      = .error schedulingConflictMsg
    ∧ sampleCenter.step ⟨sampleClient2, "KA01", .oilChange, "01-01-2025"⟩
      = (sampleCenter, []) := by
  have h := schedule_conflict_iff sampleCenter sampleClient2 "KA01" .oilChange "01-01-2025"
  have he := h.1.mpr ⟨sampleApt, by simp [sampleCenter], rfl, rfl⟩
  exact ⟨he, h.2 he⟩

/-- C3: a non-conflicting `addAppointment` call appends exactly one new
appointment at the end, in the Scheduled state with the given client,
vehicle, service and date, and delivers exactly one notification
"Appointment scheduled for {date}" to that client. -/
theorem schedule_success_appends_and_notifies (sc : ServiceCenter) (c : Client)
    (v : String) (s : Service) (d : String)
    (h : ∀ apt ∈ sc.appointments, ¬(apt.vehicleNumber = v ∧ apt.scheduledDate = d)) :
    sc.addAppointment c v s d
      = .ok (⟨sc.appointments ++ [ServiceAppointment.make c v s d]⟩,
             ⟨c, "Appointment scheduled for " ++ d⟩)
    ∧ (ServiceAppointment.make c v s d).client = c
    ∧ (ServiceAppointment.make c v s d).vehicleNumber = v
    ∧ (ServiceAppointment.make c v s d).service = s
    ∧ (ServiceAppointment.make c v s d).scheduledDate = d
    ∧ (ServiceAppointment.make c v s d).currentState = .scheduled
    ∧ sc.step ⟨c, v, s, d⟩
        = (⟨sc.appointments ++ [ServiceAppointment.make c v s d]⟩,
           [⟨c, "Appointment scheduled for " ++ d⟩]) := by
  have hc : ¬sc.appointments.any (conflictsWith v d) = true := by
    intro hany
    obtain ⟨apt, hmem, hv, hd⟩ := (any_conflict_iff sc v d).mp hany
    exact h apt hmem ⟨hv, hd⟩
  have hok : sc.addAppointment c v s d
      = .ok (⟨sc.appointments ++ [ServiceAppointment.make c v s d]⟩,
             ⟨c, "Appointment scheduled for " ++ d⟩) := by
    simp [ServiceCenter.addAppointment, hc]
  exact ⟨hok, rfl, rfl, rfl, rfl, rfl, by simp [ServiceCenter.step, hok]⟩

/-- Witness for C3: scheduling Alice on the empty registry succeeds,
stores the one appointment and notifies her. -/
theorem schedule_success_witness :
    ServiceCenter.empty.addAppointment sampleClient "KA01" .oilChange "01-01-2025"
      = .ok (⟨[ServiceAppointment.make sampleClient "KA01" .oilChange "01-01-2025"]⟩,
             ⟨sampleClient, "Appointment scheduled for " ++ "01-01-2025"⟩) :=
  (schedule_success_appends_and_notifies ServiceCenter.empty sampleClient "KA01"
    .oilChange "01-01-2025" (by simp [ServiceCenter.empty])).1

/-- C4: `advance()` (here `progressState` delegating to `nextState`)
moves the lifecycle exactly one step along
Scheduled → InProgress → Completed, is a no-op at Completed; three
applications to a fresh appointment reach Completed, a fourth leaves it
there, and each step neither moves backward nor skips a state. -/
theorem advance_moves_one_step_forward :
    (ServiceState.scheduled.nextState = .inProgress
      ∧ ServiceState.inProgress.nextState = .completed
      ∧ ServiceState.completed.nextState = .completed)
    ∧ (∀ c v s d,
        ((ServiceAppointment.make c v s d).progressStateN 3).currentState = .completed
        ∧ ((ServiceAppointment.make c v s d).progressStateN 4).currentState = .completed)
    ∧ (∀ st : ServiceState,
        st.rank ≤ st.nextState.rank ∧ st.nextState.rank ≤ st.rank + 1) := by
  refine ⟨⟨rfl, rfl, rfl⟩, fun c v s d => ⟨rfl, rfl⟩, fun st => ?_⟩
  cases st <;> simp [ServiceState.rank, ServiceState.nextState]

/-- C5: `OilChange` always costs 50; `EngineRepair x` always costs 300,
which is 1.5 times its base cost of 200, and its description contains
`x` verbatim as a substring. -/
theorem service_cost_and_description (x : String) :
    Service.oilChange.calculateCost = 50
    ∧ (Service.engineRepair x).calculateCost = 300
    ∧ (Service.engineRepair x).calculateCost
        = (3 / 2 : ℚ) * (Service.engineRepair x).baseCost
    ∧ (Service.engineRepair x).baseCost = 200
    ∧ containsVerbatim (Service.engineRepair x).getDescription x := by
  refine ⟨rfl, ?_, ?_, rfl, ⟨"Engine Repair: ", "", ?_⟩⟩
  · norm_num [Service.calculateCost, Service.baseCost]
  · norm_num [Service.calculateCost, Service.baseCost]
  · rw [string_append_empty]; rfl

/-- C6: `calculateCost` and `getDescription` are pure: the explicit-call
forms leave the receiver unchanged, agree with the function-of-the-value
forms, and repeated calls on the same instance return equal results. -/
theorem service_methods_pure (s : Service) :
    (s.calculateCostCall.2 = s ∧ s.getDescriptionCall.2 = s)
    ∧ s.calculateCostCall.1 = s.calculateCost
    ∧ s.getDescriptionCall.1 = s.getDescription
    ∧ (s.calculateCostCall.2).calculateCostCall.1 = s.calculateCostCall.1
    ∧ (s.getDescriptionCall.2).getDescriptionCall.1 = s.getDescriptionCall.1 := by
  cases s <;> exact ⟨⟨rfl, rfl⟩, rfl, rfl, rfl, rfl⟩

/-- C8: `viewAppointments` has no side effects: the registry after the
call, and in particular its appointment sequence with every field of
every appointment, is exactly the registry before the call. -/
theorem view_has_no_side_effects (sc : ServiceCenter) :
    sc.viewAppointments.1 = sc
    ∧ (sc.viewAppointments.1).appointments = sc.appointments := by
  have h := viewLoop_eq sc.appointments
  refine ⟨?_, ?_⟩ <;> simp [ServiceCenter.viewAppointments, h]

theorem containsVerbatim_of_parts (a x b : String) : containsVerbatim (a ++ x ++ b) x :=
  ⟨a, b, rfl⟩

theorem summarize_mentions_fields (apt : ServiceAppointment) :
    containsVerbatim (summarize apt) apt.vehicleNumber
    ∧ containsVerbatim (summarize apt) apt.client.name
    ∧ containsVerbatim (summarize apt) apt.service.getDescription
    ∧ containsVerbatim (summarize apt) apt.scheduledDate
    ∧ containsVerbatim (summarize apt) apt.getStatus := by
  refine
    ⟨⟨"\nVehicle: ",
      "\nClient: " ++ apt.client.name ++ "\nService: "
        ++ apt.service.getDescription ++ "\nDate: " ++ apt.scheduledDate
        ++ "\nStatus: " ++ apt.getStatus ++ "\n", ?_⟩,
     ⟨"\nVehicle: " ++ apt.vehicleNumber ++ "\nClient: ",
      "\nService: " ++ apt.service.getDescription ++ "\nDate: "
        ++ apt.scheduledDate ++ "\nStatus: " ++ apt.getStatus ++ "\n", ?_⟩,
     ⟨"\nVehicle: " ++ apt.vehicleNumber ++ "\nClient: " ++ apt.client.name
        ++ "\nService: ",
      "\nDate: " ++ apt.scheduledDate ++ "\nStatus: " ++ apt.getStatus ++ "\n", ?_⟩,
     ⟨"\nVehicle: " ++ apt.vehicleNumber ++ "\nClient: " ++ apt.client.name
        ++ "\nService: " ++ apt.service.getDescription ++ "\nDate: ",
      "\nStatus: " ++ apt.getStatus ++ "\n", ?_⟩,
     ⟨"\nVehicle: " ++ apt.vehicleNumber ++ "\nClient: " ++ apt.client.name
        ++ "\nService: " ++ apt.service.getDescription ++ "\nDate: "
        ++ apt.scheduledDate ++ "\nStatus: ", "\n", ?_⟩⟩
  all_goals simp [summarize, string_append_assoc]

theorem step_length (sc : ServiceCenter) (r : Request) :
    ((sc.step r).1).appointments.length
      = sc.appointments.length
        + (if (sc.addAppointment r.client r.vehicleNum r.service r.date).isOk
           then 1 else 0) := by
  unfold ServiceCenter.step
  cases heq : sc.addAppointment r.client r.vehicleNum r.service r.date with
  | error e => simp [heq, Except.isOk, Except.toBool]
  | ok p =>
    obtain ⟨sc', n⟩ := p
    obtain ⟨-, hsc', -⟩ := addAppointment_ok_shape _ _ _ _ _ sc' n heq
    simp [heq, hsc', Except.isOk, Except.toBool]

theorem run_length (rs : List Request) (sc : ServiceCenter) :
    ((sc.run rs).appointments).length
      = sc.appointments.length + sc.countSuccesses rs := by
  induction rs generalizing sc with
  | nil => simp [ServiceCenter.run, ServiceCenter.countSuccesses]
  | cons r rest ih =>
    rw [ServiceCenter.run, ServiceCenter.countSuccesses, ih, step_length]
    omega

theorem progressStateN_frame (a : ServiceAppointment) (n : Nat) :
    (a.progressStateN n).client = a.client
    ∧ (a.progressStateN n).vehicleNumber = a.vehicleNumber
    ∧ (a.progressStateN n).service = a.service
    ∧ (a.progressStateN n).scheduledDate = a.scheduledDate := by
  induction n with
  | zero => exact ⟨rfl, rfl, rfl, rfl⟩
  | succ n ih =>
    simpa [ServiceAppointment.progressStateN, ServiceAppointment.progressState]
      using ih

theorem progressAt_length (l : List ServiceAppointment) (i : Nat) :
    (progressAt l i).length = l.length := by
  induction l generalizing i with
  | nil => simp [progressAt]
  | cons a rest ih =>
    cases i with
    | zero => simp [progressAt]
    | succ i => simp [progressAt, ih i]

theorem progressAt_frameFields (l : List ServiceAppointment) (i : Nat) :
    (progressAt l i).map ServiceAppointment.frameFields
      = l.map ServiceAppointment.frameFields := by
  induction l generalizing i with
  | nil => simp [progressAt]
  | cons a rest ih =>
    cases i with
    | zero =>
      simp [progressAt, ServiceAppointment.frameFields,
        ServiceAppointment.progressState]
    | succ i => simp [progressAt, ih i]

theorem progressAt_getElem_ne (l : List ServiceAppointment) (i j : Nat)
    (h : j ≠ i) : (progressAt l i)[j]? = l[j]? := by
  induction l generalizing i j with
  | nil => simp [progressAt]
  | cons a rest ih =>
    cases i with
    | zero =>
      cases j with
      | zero => exact absurd rfl h
      | succ j => simp [progressAt]
    | succ i =>
      cases j with
      | zero => simp [progressAt]
      | succ j => simp [progressAt, ih i j (by omega)]

/-- C7: after running any request sequence from the empty registry,
`viewAppointments` emits one summary per stored appointment in insertion
order, the number of summaries equals the number of successful calls,
and each summary mentions the appointment's vehicle id, client name,
service description, date and status string. -/
theorem list_after_schedules (rs : List Request) :
    ((ServiceCenter.empty.run rs).viewAppointments).2
      = ((ServiceCenter.empty.run rs).appointments).map summarize
    ∧ ((ServiceCenter.empty.run rs).viewAppointments).2.length
      = ServiceCenter.empty.countSuccesses rs
    ∧ ∀ apt ∈ (ServiceCenter.empty.run rs).appointments,
        containsVerbatim (summarize apt) apt.vehicleNumber
        ∧ containsVerbatim (summarize apt) apt.client.name
        ∧ containsVerbatim (summarize apt) apt.service.getDescription
        ∧ containsVerbatim (summarize apt) apt.scheduledDate
        ∧ containsVerbatim (summarize apt) apt.getStatus := by
  have hv : ((ServiceCenter.empty.run rs).viewAppointments).2
      = ((ServiceCenter.empty.run rs).appointments).map summarize := by
    simp [ServiceCenter.viewAppointments, viewLoop_eq]
  refine ⟨hv, ?_, fun apt _ => summarize_mentions_fields apt⟩
  rw [hv, List.length_map, run_length]
  simp [ServiceCenter.empty]

/-- Witness for C7: one successful request from the empty registry
yields exactly one summary. -/
theorem list_after_schedules_witness :
    ((ServiceCenter.empty.run
        [⟨sampleClient, "KA01", .oilChange, "01-01-2025"⟩]).viewAppointments).2.length
      = ServiceCenter.empty.countSuccesses
          [⟨sampleClient, "KA01", .oilChange, "01-01-2025"⟩] :=
  (list_after_schedules [⟨sampleClient, "KA01", .oilChange, "01-01-2025"⟩]).2.1

/-- C9: any service-type string other than "oil" and "engine" makes the
schedule flow fail with the invalid-service-type error during service
construction, before `addAppointment` runs: the registry is unchanged
and no notification is delivered. -/
theorem invalid_service_type_rejected (sc : ServiceCenter)
    (cn co v d st rt : String) (h1 : st ≠ "oil") (h2 : st ≠ "engine") :
    makeService st rt = .error "Invalid service type"
    ∧ scheduleFlow sc cn co v d st rt = .error "Invalid service type"
    ∧ scheduleFlowStep sc cn co v d st rt = (sc, []) := by
  have hm : makeService st rt = .error "Invalid service type" := by
    simp [makeService, h1, h2]
  have hf : scheduleFlow sc cn co v d st rt = .error "Invalid service type" := by
    simp [scheduleFlow, hm]
  exact ⟨hm, hf, by simp [scheduleFlowStep, hf]⟩

/-- Witness for C9 at the spec's scenario: service type "bike" is
rejected and the registry stays as it was. -/
theorem invalid_service_type_witness :
    scheduleFlow sampleCenter "Carol" "888" "KA02" "02-01-2025" "bike" ""
      = .error "Invalid service type"
    ∧ scheduleFlowStep sampleCenter "Carol" "888" "KA02" "02-01-2025" "bike" ""
      = (sampleCenter, []) :=
  ⟨(invalid_service_type_rejected sampleCenter "Carol" "888" "KA02" "02-01-2025"
      "bike" "" (by decide) (by decide)).2.1,
   (invalid_service_type_rejected sampleCenter "Carol" "888" "KA02" "02-01-2025"
      "bike" "" (by decide) (by decide)).2.2⟩

/-- C10: any number of `progressState` calls changes only the lifecycle
state: client, vehicle, service and date are untouched, and progressing
one appointment inside the registry keeps the sequence's length, its
ordering of non-state fields, and every other position unchanged. -/
theorem progressState_frame (a : ServiceAppointment) (n : Nat)
    (l : List ServiceAppointment) (i : Nat) :
    ((a.progressStateN n).client = a.client
      ∧ (a.progressStateN n).vehicleNumber = a.vehicleNumber
      ∧ (a.progressStateN n).service = a.service
      ∧ (a.progressStateN n).scheduledDate = a.scheduledDate)
    ∧ (progressAt l i).length = l.length
    ∧ (progressAt l i).map ServiceAppointment.frameFields
        = l.map ServiceAppointment.frameFields
    ∧ ∀ j, j ≠ i → (progressAt l i)[j]? = l[j]? :=
  ⟨progressStateN_frame a n, progressAt_length l i, progressAt_frameFields l i,
   fun j h => progressAt_getElem_ne l i j h⟩

/-- Witness for C10 on the sample appointment and a one-element
registry. -/
theorem progressState_frame_witness :
    (sampleApt.progressStateN 2).vehicleNumber = sampleApt.vehicleNumber
    ∧ (progressAt [sampleApt] 0).length = [sampleApt].length :=
  ⟨(progressState_frame sampleApt 2 [sampleApt] 0).1.2.1,
   (progressState_frame sampleApt 2 [sampleApt] 0).2.1⟩

end BootcampCpp
